import Mathlib

/-!
# Verification development for the `rose` repository

The repository ships three Python files: the `rose` package stub
(`src/rose/__init__.py`, a version constant and export list), a templated
Click command-line greeting tool (`src/package_name/cli.py`), and its test
(`tests/test_cli.py`).  The specification additionally designs the fitting
core (optical matrix engine, resolution convolution, parameter space
manager, optimizer, fit session) that the package is intended to grow;
no such code exists in the repository, so those components are modelled
here directly from the specification text.

Sections: definitions first (CLI and package embedding, then the
spec-modelled fitting core, then concrete demonstration inputs), followed
by helper lemmas and the claim theorems.
-/

/-! ## The `rose` package stub (`src/rose/__init__.py`) -/

/-- The module-level version constant of `src/rose/__init__.py`. -/
def __version__ : String := "0.1.0"

/-- The module-level export list `__all__` of `src/rose/__init__.py`. -/
def __all__ : List String := ["__version__"]

/-! ## The CLI (`src/package_name/cli.py`)

`main` makes three `click.echo` calls and returns normally (exit code 0).
We embed it as a pure function from the `--name` option value to the
sequence of echoed messages plus the exit code. -/

/-- Default value of the `--name` option (`@click.option("--name", default="AI", ...)`). -/
def defaultName : String := "AI"

/-- The greeting message echoed first: `f"Hello, {name}! 👋"`. -/
def greetingLine (name : String) : String := "Hello, " ++ name ++ "! 👋"

/-- The second echoed message (starts with an embedded newline in the source). -/
def templateLine : String :=
  "\nThis is a template CLI. Replace it with your own commands!"

/-- The third echoed message. -/
def tipLine : String := "Tip: Ask Copilot to help you add functionality here."

/-- The sequence of messages `main` writes via `click.echo`, in order. -/
def echoedMessages (name : String) : List String :=
  [greetingLine name, templateLine, tipLine]

/-- Result of one CLI invocation: the echoed messages and the process exit code. -/
structure CliRun where
  messages : List String
  exitCode : Nat
  deriving Repr, DecidableEq

/-- Embedding of `main(name)`: echoes the three messages and exits with code 0.
The body touches no state other than its `name` argument. -/
def cliMain (name : String) : CliRun :=
  { messages := echoedMessages name, exitCode := 0 }

open scoped Classical

/-! ## Error taxonomy (spec section 7)

Modelled from the spec: the error taxonomy `InvalidStackError`,
`InvalidResolutionError`, `OutOfBoundsError`, `OptimizationError`. -/

/-- Modelled from the spec: the error taxonomy of section 7 (the
`PrecisionWarning` is a non-fatal report, not an error value). -/
inductive FitError
  | invalidStack
  | invalidResolution
  | outOfBounds
  | optimizationFailed
  deriving Repr, DecidableEq

/-! ## Data model (spec section 3) -/

/-- Modelled from the spec: a `Layer` — thickness, scattering length
density (real and imaginary component) and interfacial roughness.
Immutable record. -/
structure Layer where
  thickness : ℝ
  sldRe : ℝ
  sldIm : ℝ
  roughness : ℝ

/-- The complex scattering length density of a layer. -/
def Layer.sld (l : Layer) : ℂ := ⟨l.sldRe, l.sldIm⟩

/-- Modelled from the spec: a `Stack` — ordered sequence of Layers from
incident medium (fronting) to substrate (backing). -/
structure Stack where
  layers : List Layer

/-- Modelled from the spec: a `Dataset` — ordered (Q, reflectivity,
uncertainty) triples. -/
structure Dataset where
  points : List (ℝ × ℝ × ℝ)

/-! ## Optical Matrix Engine (spec section 4.1)

Modelled from the spec: the Abeles/Parratt transfer formalism.  The
per-layer normal wavevector is `kz_j = sqrt((Q/2)^2 - 4*pi*(rho_j - rho_0))`
(complex square root; `rho_0` is the fronting SLD), interface Fresnel
coefficients are `(k_j - k_{j+1})/(k_j + k_{j+1})` damped by the
Nevot-Croce roughness factor `exp(-2 k_j k_{j+1} sigma^2)`, and the
reflected amplitude is accumulated bottom-up by the Parratt recursion;
the returned intensity is `|r|^2`. -/

/-- Principal complex square root, written out through real `Real.sqrt`
on the polar components (`csqrt z ^ 2 = z` on the slit plane; only the
values at `0` and at negative reals are needed below). -/
noncomputable def csqrt (z : ℂ) : ℂ :=
  ⟨Real.sqrt ((Complex.abs z + z.re) / 2),
   (if z.im < 0 then (-1 : ℝ) else 1) * Real.sqrt ((Complex.abs z - z.re) / 2)⟩

/-- Modelled from the spec: the normal component of the wavevector inside a
medium of SLD `rho`, referenced to the fronting SLD `rho0`, at wavevector
transfer `q`. -/
noncomputable def kzOf (rho0 rho : ℂ) (q : ℝ) : ℂ :=
  csqrt ((((q / 2) ^ 2 : ℝ) : ℂ) - ((4 * Real.pi : ℝ) : ℂ) * (rho - rho0))

/-- Modelled from the spec: the Parratt recursion over the list of
per-layer data `(kz, thickness, roughness)`, ordered fronting first.
A single remaining layer (the semi-infinite backing) reflects nothing
from below. -/
noncomputable def parrattR : List (ℂ × ℝ × ℝ) → ℂ
  | [] => 0
  | [_] => 0
  | (k0, _, s0) :: (k1, d1, s1) :: rest =>
      ((k0 - k1) / (k0 + k1) * Complex.exp (-2 * k0 * k1 * ((s0 : ℝ) : ℂ) ^ 2)
          + parrattR ((k1, d1, s1) :: rest) * Complex.exp (2 * Complex.I * k1 * ((d1 : ℝ) : ℂ)))
        / (1 + (k0 - k1) / (k0 + k1) * Complex.exp (-2 * k0 * k1 * ((s0 : ℝ) : ℂ) ^ 2)
            * (parrattR ((k1, d1, s1) :: rest) * Complex.exp (2 * Complex.I * k1 * ((d1 : ℝ) : ℂ))))

/-- Modelled from the spec: reflected intensity of a stack at wavevector
transfer `q` — the squared modulus of the Parratt amplitude. -/
noncomputable def reflectivity (s : Stack) (q : ℝ) : ℝ :=
  match s.layers with
  | [] => 0
  | l0 :: _ =>
      Complex.abs
        (parrattR (s.layers.map (fun l => (kzOf l0.sld l.sld q, l.thickness, l.roughness)))) ^ 2

/-- Modelled from the spec: the validity precondition of the engine —
at least two layers (fronting and backing) and no negative thickness. -/
def validStack (s : Stack) : Prop :=
  2 ≤ s.layers.length ∧ ∀ l ∈ s.layers, 0 ≤ l.thickness

/-- Modelled from the spec: the engine entry point — rejects a malformed
stack with `InvalidStackError` before any evaluation, otherwise computes
the reflectivity. -/
noncomputable def computeReflectivity (s : Stack) (q : ℝ) : Except FitError ℝ :=
  if validStack s then Except.ok (reflectivity s q) else Except.error FitError.invalidStack

/-! ## Resolution Convolution (spec section 4.2)

Modelled from the spec: Gaussian smearing of a theoretical curve sampled
on grid `qin`, evaluated at each output point; the kernel is truncated to
the finite grid and renormalized so its weights sum to one. -/

/-- Modelled from the spec: unnormalized Gaussian kernel weight at offset `x`. -/
noncomputable def gaussWeight (width x : ℝ) : ℝ :=
  Real.exp (-(x ^ 2) / (2 * width ^ 2))

/-- Modelled from the spec: the truncated-and-renormalized kernel weights
of the input grid `qin` about the output point `q0`. -/
noncomputable def kernelWeights (qin : List ℝ) (q0 width : ℝ) : List ℝ :=
  let raw := qin.map (fun q => gaussWeight width (q - q0))
  raw.map (fun w => w / raw.sum)

/-- Modelled from the spec: the convolved value at one output point. -/
noncomputable def convolveAt (qin curve : List ℝ) (q0 width : ℝ) : ℝ :=
  (List.zipWith (fun w y => w * y) (kernelWeights qin q0 width) curve).sum

/-- Modelled from the spec: the convolution entry point — rejects a
non-positive resolution width with `InvalidResolutionError`, otherwise
resamples the smeared curve onto the output points. -/
noncomputable def convolve (qin curve qout : List ℝ) (width : ℝ) : Except FitError (List ℝ) :=
  if width ≤ 0 then Except.error FitError.invalidResolution
  else Except.ok (qout.map (fun q0 => convolveAt qin curve q0 width))

/-! ## Parameter Space Manager (spec sections 3 and 4.3)

Modelled from the spec: fittable parameters with value, bounds,
free/fixed flag and optional linkage (tie) to another parameter;
`to_vector` extracts the free (untied) values, `from_vector` rebuilds the
full stack after substituting vector entries, rejecting out-of-bounds
values with `OutOfBoundsError`; ties are resolved during the rebuild. -/

/-- The four layer attributes a parameter can be bound to. -/
inductive ParamKind
  | thickness
  | sldRe
  | sldIm
  | roughness
  deriving Repr, DecidableEq

/-- Modelled from the spec: a fittable `Parameter` — value, bounds,
free/fixed flag, optional linkage to another parameter (addressed by
layer index and attribute). -/
structure Parameter where
  value : ℝ
  lower : ℝ
  upper : ℝ
  free : Bool
  tie : Option (Nat × ParamKind)

/-- A parameter contributes a slot to the optimization vector when it is
free and not tied to another parameter. -/
def Parameter.contributes (p : Parameter) : Bool := p.free && p.tie.isNone

/-- The in-bounds condition on one parameter value. -/
def Parameter.withinBounds (p : Parameter) : Prop := p.lower ≤ p.value ∧ p.value ≤ p.upper

/-- The four parameters backing one layer's attributes. -/
structure LayerParams where
  thickness : Parameter
  sldRe : Parameter
  sldIm : Parameter
  roughness : Parameter

/-- The parameter bound to a given attribute. -/
def LayerParams.attr (lp : LayerParams) : ParamKind → Parameter
  | ParamKind.thickness => lp.thickness
  | ParamKind.sldRe => lp.sldRe
  | ParamKind.sldIm => lp.sldIm
  | ParamKind.roughness => lp.roughness

/-- The parameters of a layer in traversal order. -/
def LayerParams.paramsOf (lp : LayerParams) : List Parameter :=
  [lp.thickness, lp.sldRe, lp.sldIm, lp.roughness]

/-- Modelled from the spec: the Parameter Space Manager's owned state —
the per-layer parameters, fronting first. -/
structure ParamSpace where
  layers : List LayerParams

/-- The vector slots contributed by one parameter (its value if it is
free and untied, nothing otherwise). -/
def paramVec (p : Parameter) : List ℝ :=
  if p.contributes then [p.value] else []

/-- The vector slots contributed by one layer. -/
def layerVec (lp : LayerParams) : List ℝ :=
  paramVec lp.thickness ++ paramVec lp.sldRe ++ paramVec lp.sldIm ++ paramVec lp.roughness

/-- Modelled from the spec: `to_vector` — the flat optimization vector,
free parameters only, in traversal order. -/
def to_vector (ps : ParamSpace) : List ℝ :=
  ps.layers.flatMap layerVec

/-- Substitute the next vector entry into one parameter (free untied
parameters consume a slot; fixed and tied parameters keep their state). -/
def assignParam (p : Parameter) (vs : List ℝ) : Parameter × List ℝ :=
  if p.contributes then
    match vs with
    | [] => (p, [])
    | v :: rest => ({ p with value := v }, rest)
  else (p, vs)

/-- Substitute vector entries into one layer's four parameters in order. -/
def assignLayer (lp : LayerParams) (vs : List ℝ) : LayerParams × List ℝ :=
  let r1 := assignParam lp.thickness vs
  let r2 := assignParam lp.sldRe r1.2
  let r3 := assignParam lp.sldIm r2.2
  let r4 := assignParam lp.roughness r3.2
  (⟨r1.1, r2.1, r3.1, r4.1⟩, r4.2)

/-- Substitute vector entries into the whole parameter space. -/
def assignAll : List LayerParams → List ℝ → List LayerParams
  | [], _ => []
  | lp :: lps, vs => (assignLayer lp vs).1 :: assignAll lps (assignLayer lp vs).2

/-- Modelled from the spec: resolve one parameter's effective value,
following tie links (fuel-bounded; ties form a DAG checked at
configuration time, so the fuel is never exhausted on valid input). -/
def resolveValue (ps : ParamSpace) : Nat → Nat → ParamKind → ℝ
  | 0, _, _ => 0
  | fuel + 1, i, k =>
      match ps.layers.get? i with
      | none => 0
      | some lp =>
          match (lp.attr k).tie with
          | none => (lp.attr k).value
          | some (j, k2) => resolveValue ps fuel j k2

/-- Modelled from the spec: the Stack derived from the current parameter
values, ties resolved. -/
def buildStack (ps : ParamSpace) : Stack :=
  { layers :=
      (List.range ps.layers.length).map (fun i =>
        { thickness := resolveValue ps (4 * ps.layers.length + 1) i ParamKind.thickness
          sldRe := resolveValue ps (4 * ps.layers.length + 1) i ParamKind.sldRe
          sldIm := resolveValue ps (4 * ps.layers.length + 1) i ParamKind.sldIm
          roughness := resolveValue ps (4 * ps.layers.length + 1) i ParamKind.roughness }) }

/-- Modelled from the spec: `from_vector` — substitute the vector into the
free parameters, reject any substituted value outside its bounds with
`OutOfBoundsError`, and rebuild the full Stack (fixed values kept, ties
resolved). -/
noncomputable def from_vector (ps : ParamSpace) (v : List ℝ) : Except FitError Stack :=
  let assigned : ParamSpace := ⟨assignAll ps.layers v⟩
  if ∀ lp ∈ assigned.layers, ∀ p ∈ lp.paramsOf, p.contributes = true → p.withinBounds
  then Except.ok (buildStack assigned)
  else Except.error FitError.outOfBounds

/-! ## Objective Function and Optimizer/Sampler (spec sections 4.4 and 4.5)

Modelled from the spec: the objective is the weighted sum of squared
residuals between measured and model curves, with out-of-bounds proposals
converted to a large finite penalty cost; the optimizer is a seeded
derivative-free random search driven by a deterministic linear
congruential generator, treating the objective as a black box. -/

/-- Modelled from the spec: chi-square-style weighted residual sum of a
vector proposal against the dataset; an `OutOfBoundsError` from
`from_vector` becomes a large finite penalty cost. -/
noncomputable def objective (ps : ParamSpace) (ds : Dataset) (v : List ℝ) : ℝ :=
  match from_vector ps v with
  | Except.error _ => 1000000
  | Except.ok stack =>
      (ds.points.map (fun t => ((reflectivity stack t.1 - t.2.1) / t.2.2) ^ 2)).sum

/-- Modelled from the spec: optimizer configuration — iteration budget and
proposal scale. -/
structure OptConfig where
  maxIterations : Nat
  scale : ℝ

/-- Modelled from the spec: a `FitResult` — best-fit vector snapshot,
objective value, iterations used and convergence status. -/
structure FitResult where
  bestVector : List ℝ
  bestCost : ℝ
  iterations : Nat
  converged : Bool

/-- The 64-bit linear congruential generator seeding the optimizer's
pseudo-random proposals. -/
def lcg (s : Nat) : Nat :=
  (6364136223846793005 * s + 1442695040888963407) % 2 ^ 64

/-- A pseudo-random draw in `[0, 1)` from a generator state. -/
noncomputable def unitReal (s : Nat) : ℝ := ((s % 2 ^ 32 : Nat) : ℝ) / 2 ^ 32

/-- Perturb each coordinate with a fresh generator draw, threading the
generator state. -/
noncomputable def perturb (scale : ℝ) : List ℝ → Nat → List ℝ × Nat
  | [], rng => ([], rng)
  | x :: xs, rng =>
      let rng1 := lcg rng
      let rest := perturb scale xs rng1
      ((x + scale * (2 * unitReal rng1 - 1)) :: rest.1, rest.2)

/-- Modelled from the spec: the optimizer's iteration loop — propose a
perturbed vector, keep it when the (black-box) objective improves. -/
noncomputable def optIterate (f : List ℝ → ℝ) (scale : ℝ) :
    Nat → List ℝ × Nat → List ℝ × Nat
  | 0, st => st
  | n + 1, (x, rng) =>
      let prop := perturb scale x rng
      optIterate f scale n (if f prop.1 < f x then (prop.1, prop.2) else (x, prop.2))

/-- Modelled from the spec: run the optimizer from an initial vector with
a fixed seed, producing the FitResult. -/
noncomputable def runOptimizer (f : List ℝ → ℝ) (cfg : OptConfig) (x0 : List ℝ)
    (seed : Nat) : FitResult :=
  let final := optIterate f cfg.scale cfg.maxIterations (x0, lcg seed)
  { bestVector := final.1
    bestCost := f final.1
    iterations := cfg.maxIterations
    converged := true }

/-- Modelled from the spec: a full fit — optimize the dataset objective
from the parameter space's current vector under the given seed. -/
noncomputable def runFit (ps : ParamSpace) (ds : Dataset) (cfg : OptConfig)
    (seed : Nat) : FitResult :=
  runOptimizer (objective ps ds) cfg (to_vector ps) seed

/-! ## Fit Session (spec section 4.6)

Modelled from the spec: the orchestration state machine
`Created → DataLoaded → ModelConfigured → Fitting → Completed|Failed`,
with precondition-validated transitions, `Failed` terminal and carrying
the error, `Completed` carrying the FitResult. -/

/-- The session phases. -/
inductive Phase
  | created
  | dataLoaded
  | modelConfigured
  | fitting
  | completed
  | failed
  deriving Repr, DecidableEq

/-- Modelled from the spec: the session state — current phase plus the
artifacts accumulated so far. -/
structure Session where
  phase : Phase
  dataset : Option Dataset
  initialStack : Option Stack
  result : Option FitResult
  error : Option FitError

/-- The session events driving transitions. -/
inductive SessionEvent
  | loadData (ds : Dataset)
  | configureModel (st : Stack)
  | startFit
  | finishSuccess (r : FitResult)
  | finishFailure (e : FitError)

/-- The fresh session. -/
def initialSession : Session :=
  { phase := Phase.created, dataset := none, initialStack := none
    result := none, error := none }

/-- Modelled from the spec: the transition function; disallowed
transitions are rejected (`none`).  Entering `Fitting` requires both a
Dataset and an initial Stack to be present; no transition leaves
`Completed` or `Failed`. -/
def sessionStep (s : Session) (ev : SessionEvent) : Option Session :=
  match s.phase, ev with
  | Phase.created, SessionEvent.loadData ds =>
      some { s with phase := Phase.dataLoaded, dataset := some ds }
  | Phase.dataLoaded, SessionEvent.configureModel st =>
      some { s with phase := Phase.modelConfigured, initialStack := some st }
  | Phase.modelConfigured, SessionEvent.startFit =>
      if s.dataset.isSome && s.initialStack.isSome
      then some { s with phase := Phase.fitting }
      else none
  | Phase.fitting, SessionEvent.finishSuccess r =>
      some { s with phase := Phase.completed, result := some r }
  | Phase.fitting, SessionEvent.finishFailure e =>
      some { s with phase := Phase.failed, error := some e }
  | _, _ => none

/-- The states reachable from the fresh session through validated
transitions. -/
inductive ReachableSession : Session → Prop
  | init : ReachableSession initialSession
  | step {s s' : Session} {ev : SessionEvent} :
      ReachableSession s → sessionStep s ev = some s' → ReachableSession s'

/-! ## Concrete demonstration inputs used by witnesses and counterexamples -/

/-- A two-layer stack with zero thickness, zero roughness and zero SLD
everywhere: valid for the engine, but with no SLD contrast anywhere. -/
def uniformDemoStack : Stack :=
  { layers := [{ thickness := 0, sldRe := 0, sldIm := 0, roughness := 0 },
               { thickness := 0, sldRe := 0, sldIm := 0, roughness := 0 }] }

/-- A two-layer stack: vacuum fronting over a substrate of higher SLD,
zero roughness. -/
def contrastDemoStack : Stack :=
  { layers := [{ thickness := 0, sldRe := 0, sldIm := 0, roughness := 0 },
               { thickness := 0, sldRe := 1, sldIm := 0, roughness := 0 }] }

/-- A two-layer stack used to exercise the engine's validity check. -/
def engineDemoStack : Stack :=
  { layers := [{ thickness := 0, sldRe := 0, sldIm := 0, roughness := 0 },
               { thickness := 0, sldRe := 2, sldIm := 0, roughness := 0 }] }

/-- A free parameter sitting inside its bounds. -/
def freeDemoParam : Parameter :=
  { value := 1, lower := 0, upper := 10, free := true, tie := none }

/-- A fixed parameter (not part of the optimization vector). -/
def fixedDemoParam : Parameter :=
  { value := 5, lower := 0, upper := 10, free := false, tie := none }

/-- A parameter tied to the thickness of layer 0. -/
def tiedDemoParam : Parameter :=
  { value := 0, lower := 0, upper := 10, free := false
    tie := some (0, ParamKind.thickness) }

/-- A demonstration parameter space: two layers mixing free, fixed and
tied parameters, all values within bounds. -/
def demoParamSpace : ParamSpace :=
  { layers :=
      [{ thickness := freeDemoParam, sldRe := fixedDemoParam
         sldIm := fixedDemoParam, roughness := freeDemoParam },
       { thickness := tiedDemoParam, sldRe := freeDemoParam
         sldIm := fixedDemoParam, roughness := fixedDemoParam }] }

/-- An empty demonstration dataset. -/
def demoDataset : Dataset := { points := [] }

/-- The session state after loading the demonstration dataset. -/
def demoLoadedSession : Session :=
  { phase := Phase.dataLoaded, dataset := some demoDataset
    initialStack := none, result := none, error := none }

/-- The session state after additionally configuring the model. -/
def demoConfiguredSession : Session :=
  { phase := Phase.modelConfigured, dataset := some demoDataset
    initialStack := some uniformDemoStack, result := none, error := none }

/-- The session state reached after loading data, configuring the model
and starting the fit. -/
def demoFittingSession : Session :=
  { phase := Phase.fitting, dataset := some demoDataset
    initialStack := some uniformDemoStack, result := none, error := none }

/-! ## Helper lemmas -/

/-- Splitting the tail literal of the greeting. -/
theorem greeting_tail_split : ("! 👋" : String) = "!" ++ " 👋" := by decide

/-- A session whose phase is `failed` admits no transition at all. -/
theorem sessionStep_of_failed (s : Session) (h : s.phase = Phase.failed)
    (ev : SessionEvent) : sessionStep s ev = none := by
  cases ev <;> simp [sessionStep, h]

/-! ## Claim theorems -/

/-- C1: for every string value passed as the `--name` option, invoking
`main` prints a greeting line containing `"Hello, <name>!"` and
terminates with exit code 0. -/
theorem cli_greets_every_name (name : String) :
    (∃ pre post,
        (cliMain name).messages.head? = some (pre ++ ("Hello, " ++ name ++ "!") ++ post))
      ∧ (cliMain name).exitCode = 0 := by
  refine ⟨⟨"", " 👋", ?_⟩, rfl⟩
  simp [cliMain, echoedMessages, greetingLine, greeting_tail_split, String.append_assoc]

/-- C2: the rose package stub defines only the version constant, equal to
`"0.1.0"`, and its export list contains exactly that constant. -/
theorem rose_stub_exports :
    __version__ = "0.1.0" ∧ __all__ = ["__version__"] ∧ __all__.length = 1 :=
  ⟨rfl, rfl, rfl⟩

/-- C9: invoked with no `--name` option, `main` uses the default name
`"AI"`: the first output line is the greeting for `"AI"` and the exit
code is 0. -/
theorem cli_default_name_greeting :
    defaultName = "AI"
      ∧ (cliMain defaultName).messages.head? = some "Hello, AI! 👋"
      ∧ (cliMain defaultName).exitCode = 0 :=
  ⟨rfl, by decide, rfl⟩

/-- C10: `main` is a pure function of its name argument — two invocations
with the same name produce exactly the same three output writes and the
same exit code, with no dependence on any other state. -/
theorem cli_pure_deterministic (name1 name2 : String) (h : name1 = name2) :
    cliMain name1 = cliMain name2
      ∧ (cliMain name1).messages.length = 3
      ∧ (cliMain name1).exitCode = 0 := by
  subst h; exact ⟨rfl, rfl, rfl⟩

/-- Witness for C10 at the concrete name `"World"`. -/
theorem cli_pure_deterministic_witness :
    cliMain "World" = cliMain "World"
      ∧ (cliMain "World").messages.length = 3
      ∧ (cliMain "World").exitCode = 0 :=
  cli_pure_deterministic "World" "World" rfl

/-- C6: the optimizer is deterministic under a fixed seed — two runs with
identical configuration, Dataset and seed produce identical FitResults. -/
theorem optimizer_deterministic (ps : ParamSpace) (ds : Dataset) (cfg : OptConfig)
    (seed : Nat) (r1 r2 : FitResult)
    (h1 : runFit ps ds cfg seed = r1) (h2 : runFit ps ds cfg seed = r2) :
    r1 = r2 := by
  rw [← h1, ← h2]

/-- Witness for C6 at a concrete configuration, dataset and seed. -/
theorem optimizer_deterministic_witness :
    runFit demoParamSpace demoDataset { maxIterations := 3, scale := 1 } 42
      = runFit demoParamSpace demoDataset { maxIterations := 3, scale := 1 } 42 :=
  optimizer_deterministic demoParamSpace demoDataset
    { maxIterations := 3, scale := 1 } 42 _ _ rfl rfl

/-- C8: in every reachable session state whose phase is `Fitting`, both a
Dataset and an initial Stack are present (the transition into `Fitting`
is rejected otherwise), and the `Failed` phase is terminal — no
transition leaves it. -/
theorem session_fitting_inv_and_failed_terminal (s : Session) (h : ReachableSession s) :
    (s.phase = Phase.fitting →
        s.dataset.isSome = true ∧ s.initialStack.isSome = true)
      ∧ (s.phase = Phase.failed → ∀ ev, sessionStep s ev = none) := by
  constructor
  · induction h with
    | init => intro hp; simp [initialSession] at hp
    | step hr hstep ih =>
        intro hp
        unfold sessionStep at hstep
        split at hstep
        · cases hstep; simp_all
        · cases hstep; simp_all
        · split at hstep
          · cases hstep
            rename_i hguard
            simp_all [Bool.and_eq_true]
          · cases hstep
        · cases hstep; simp_all
        · cases hstep; simp_all
        · cases hstep
  · intro hp ev
    exact sessionStep_of_failed s hp ev

/-- Witness for C8: the concrete fitting session reached by loading data,
configuring the model and starting the fit carries both artifacts. -/
theorem session_fitting_inv_witness :
    demoFittingSession.dataset.isSome = true
      ∧ demoFittingSession.initialStack.isSome = true :=
  (session_fitting_inv_and_failed_terminal demoFittingSession
      (@ReachableSession.step demoConfiguredSession demoFittingSession
        SessionEvent.startFit
        (@ReachableSession.step demoLoadedSession demoConfiguredSession
          (SessionEvent.configureModel uniformDemoStack)
          (@ReachableSession.step initialSession demoLoadedSession
            (SessionEvent.loadData demoDataset)
            ReachableSession.init rfl)
          rfl)
        rfl)).1
    rfl

/-- Summing a list divided elementwise by a constant. -/
theorem list_sum_map_div (l : List ℝ) (c : ℝ) :
    (l.map (fun w => w / c)).sum = l.sum / c := by
  induction l with
  | nil => simp
  | cons a t ih => simp [ih, add_div]

/-- C5: the engine raises `InvalidStackError` exactly when the stack has a
layer of negative thickness or fewer than 2 layers, attempting no
evaluation in that case; any valid stack — including zero-roughness and
zero-thickness degenerate layers — is evaluated successfully. -/
theorem engine_invalid_stack_iff (s : Stack) (q : ℝ) :
    (computeReflectivity s q = Except.error FitError.invalidStack
        ↔ s.layers.length < 2 ∨ ∃ l ∈ s.layers, l.thickness < 0)
      ∧ (validStack s → computeReflectivity s q = Except.ok (reflectivity s q)) := by
  constructor
  · by_cases h : validStack s
    · rw [computeReflectivity, if_pos h]
      simp only [reduceCtorEq, false_iff]
      rintro (hlen | ⟨l, hl, hneg⟩)
      · exact absurd h.1 (not_le.2 hlen)
      · exact absurd (h.2 l hl) (not_le.mpr hneg)
    · rw [computeReflectivity, if_neg h]
      simp only [true_iff]
      rw [validStack, not_and_or] at h
      rcases h with h | h
      · exact Or.inl (not_le.1 h)
      · push_neg at h
        obtain ⟨l, hl, hneg⟩ := h
        exact Or.inr ⟨l, hl, hneg⟩
  · intro h
    rw [computeReflectivity, if_pos h]

/-- Witness for C5: the degenerate zero-thickness, zero-roughness
two-layer stack passes validation and is evaluated. -/
theorem engine_invalid_stack_iff_witness :
    computeReflectivity engineDemoStack 0 = Except.ok (reflectivity engineDemoStack 0) :=
  (engine_invalid_stack_iff engineDemoStack 0).2
    (by constructor
        · simp [engineDemoStack]
        · intro l hl
          simp only [engineDemoStack, List.mem_cons, List.not_mem_nil, or_false] at hl
          rcases hl with rfl | rfl <;> norm_num)

/-- C7: the convolution rejects every non-positive resolution width with
`InvalidResolutionError`, and for every positive width the truncated
Gaussian kernel is renormalized so its total mass is 1 at every output
point of a nonempty grid. -/
theorem convolution_width_check_and_unit_mass (qin curve qout : List ℝ) (q0 width : ℝ) :
    (convolve qin curve qout width = Except.error FitError.invalidResolution ↔ width ≤ 0)
      ∧ (0 < width → qin ≠ [] → (kernelWeights qin q0 width).sum = 1) := by
  constructor
  · by_cases hw : width ≤ 0
    · rw [convolve, if_pos hw]
      simp [hw]
    · rw [convolve, if_neg hw]
      simp [hw]
  · intro hw hne
    rw [kernelWeights]
    have hpos : ∀ x ∈ qin.map (fun q => gaussWeight width (q - q0)), 0 < x := by
      intro x hx
      obtain ⟨qv, hq, rfl⟩ := List.mem_map.1 hx
      exact Real.exp_pos _
    have hne' : qin.map (fun q => gaussWeight width (q - q0)) ≠ [] := by
      simpa using hne
    have hsum : 0 < (qin.map (fun q => gaussWeight width (q - q0))).sum :=
      List.sum_pos _ hpos hne'
    rw [list_sum_map_div]
    exact div_self (ne_of_gt hsum)

/-- Witness for C7: a two-point grid with unit width has unit kernel mass,
and the guard accepts the positive width. -/
theorem convolution_unit_mass_witness :
    (kernelWeights [0, 1] 0 1).sum = 1 :=
  (convolution_width_check_and_unit_mass [0, 1] [1, 1] [0] 0 1).2
    (by norm_num) (by simp)

/-- Re-substituting a parameter's own vector contribution leaves it
unchanged and consumes exactly its slots. -/
theorem assignParam_append (p : Parameter) (rest : List ℝ) :
    assignParam p (paramVec p ++ rest) = (p, rest) := by
  by_cases hc : p.contributes <;> simp [assignParam, paramVec, hc]

/-- Re-substituting a layer's own vector contribution leaves it unchanged
and consumes exactly its slots. -/
theorem assignLayer_append (lp : LayerParams) (rest : List ℝ) :
    assignLayer lp (layerVec lp ++ rest) = (lp, rest) := by
  simp [assignLayer, layerVec, List.append_assoc, assignParam_append]

/-- Re-substituting the whole optimization vector leaves every parameter
unchanged. -/
theorem assignAll_flatMap (lps : List LayerParams) (rest : List ℝ) :
    assignAll lps (lps.flatMap layerVec ++ rest) = lps := by
  induction lps with
  | nil => rfl
  | cons lp lps ih =>
      simp only [List.flatMap_cons, List.append_assoc, assignAll, assignLayer_append]
      exact congrArg (lp :: ·) ih

/-- C3: for every valid Parameter Space Manager configuration,
`from_vector` after `to_vector` reproduces the Stack derived from the
unmodified parameter values exactly. -/
theorem psm_roundtrip (ps : ParamSpace)
    (hb : ∀ lp ∈ ps.layers, ∀ p ∈ lp.paramsOf, p.contributes = true → p.withinBounds) :
    from_vector ps (to_vector ps) = Except.ok (buildStack ps) := by
  have hassign : assignAll ps.layers (to_vector ps) = ps.layers := by
    simpa [to_vector] using assignAll_flatMap ps.layers []
  simp only [from_vector, hassign]
  rw [if_pos hb]

/-- Witness for C3 at a concrete two-layer parameter space mixing free,
fixed and tied parameters, all within bounds. -/
theorem psm_roundtrip_witness :
    from_vector demoParamSpace (to_vector demoParamSpace)
      = Except.ok (buildStack demoParamSpace) :=
  psm_roundtrip demoParamSpace
    (by
      intro lp hlp p hp hc
      simp only [demoParamSpace, List.mem_cons, List.not_mem_nil, or_false] at hlp
      rcases hlp with rfl | rfl <;>
        simp only [LayerParams.paramsOf, List.mem_cons, List.not_mem_nil, or_false] at hp <;>
        rcases hp with rfl | rfl | rfl | rfl <;>
        norm_num [Parameter.withinBounds, freeDemoParam, fixedDemoParam, tiedDemoParam])

/-- The complex square root of zero is zero. -/
theorem csqrt_zero : csqrt 0 = 0 := by
  simp [csqrt, Complex.ext_iff]

/-- Multiplying a real coordinate onto `I` lands on the imaginary axis. -/
theorem I_mul_ofReal (c : ℝ) : Complex.I * (c : ℂ) = ⟨0, c⟩ := by
  apply Complex.ext <;> simp

/-- The complex square root of a negative real is purely imaginary. -/
theorem csqrt_neg_real (x : ℝ) (hx : x < 0) :
    csqrt (x : ℂ) = Complex.I * (Real.sqrt (-x) : ℂ) := by
  have habs : Complex.abs (x : ℂ) = -x := by
    rw [Complex.abs_ofReal, abs_of_neg hx]
  rw [I_mul_ofReal]
  simp only [csqrt, habs, Complex.ofReal_re, Complex.ofReal_im, Complex.mk.injEq]
  constructor
  · rw [show (-x + x) / 2 = 0 by ring, Real.sqrt_zero]
  · rw [show (-x - x) / 2 = -x by ring]
    norm_num

/-- At `Q = 0` the fronting medium's normal wavevector vanishes. -/
theorem kzOf_self (rho : ℂ) : kzOf rho rho 0 = 0 := by
  simp [kzOf, csqrt_zero]

/-- At `Q = 0` a medium of real SLD strictly above the fronting SLD has a
purely imaginary normal wavevector with positive coefficient. -/
theorem kzOf_pos_contrast (a b : ℝ) (h : a < b) :
    ∃ y : ℝ, 0 < y ∧ kzOf (a : ℂ) (b : ℂ) 0 = Complex.I * (y : ℂ) := by
  refine ⟨Real.sqrt (4 * Real.pi * (b - a)), ?_, ?_⟩
  · apply Real.sqrt_pos.mpr
    have hpi : (0 : ℝ) < Real.pi := Real.pi_pos
    nlinarith
  · rw [kzOf]
    have harg : (((0 / 2 : ℝ) ^ 2 : ℝ) : ℂ) - ((4 * Real.pi : ℝ) : ℂ) * ((b : ℂ) - (a : ℂ))
        = ((-(4 * Real.pi * (b - a)) : ℝ) : ℂ) := by
      push_cast
      ring
    rw [harg, csqrt_neg_real]
    · norm_num
    · have hpi : (0 : ℝ) < Real.pi := Real.pi_pos
      nlinarith

/-- A Möbius step with coefficients in the open unit interval stays in the
open unit interval. -/
theorem mobius_abs_lt_one (r w : ℝ) (hr : |r| < 1) (hw : |w| < 1) :
    |(r + w) / (1 + r * w)| < 1 := by
  have hr' := abs_lt.mp hr
  have hw' := abs_lt.mp hw
  have p1 : 0 < (1 - r) * (1 - w) := mul_pos (by linarith) (by linarith)
  have p2 : 0 < (1 + r) * (1 + w) := mul_pos (by linarith) (by linarith)
  have hden : 0 < 1 + r * w := by nlinarith
  rw [abs_div, abs_of_pos hden, div_lt_one hden, abs_lt]
  constructor <;> nlinarith

/-- The Fresnel coefficient between two purely imaginary wavevectors is
the real contrast ratio. -/
theorem fresnel_I (y1 y2 : ℝ) :
    (Complex.I * (y1 : ℂ) - Complex.I * (y2 : ℂ))
        / (Complex.I * (y1 : ℂ) + Complex.I * (y2 : ℂ))
      = (((y1 - y2) / (y1 + y2) : ℝ) : ℂ) := by
  rw [show Complex.I * (y1 : ℂ) - Complex.I * (y2 : ℂ)
        = Complex.I * ((y1 : ℂ) - (y2 : ℂ)) by ring,
      show Complex.I * (y1 : ℂ) + Complex.I * (y2 : ℂ)
        = Complex.I * ((y1 : ℂ) + (y2 : ℂ)) by ring,
      mul_div_mul_left _ _ Complex.I_ne_zero]
  push_cast
  ring

/-- The phase factor across a layer with purely imaginary wavevector is a
real exponential damping. -/
theorem beta_I (y d : ℝ) :
    Complex.exp (2 * Complex.I * (Complex.I * (y : ℂ)) * ((d : ℝ) : ℂ))
      = ((Real.exp (-(2 * y * d)) : ℝ) : ℂ) := by
  rw [show 2 * Complex.I * (Complex.I * (y : ℂ)) * ((d : ℝ) : ℂ)
      = (Complex.I * Complex.I) * (2 * (y : ℂ) * (d : ℂ)) by ring]
  rw [Complex.I_mul_I]
  rw [show (-1 : ℂ) * (2 * (y : ℂ) * (d : ℂ)) = ((-(2 * y * d) : ℝ) : ℂ) by push_cast; ring]
  rw [Complex.ofReal_exp]

/-- The contrast ratio of two positive coefficients lies strictly inside
the unit interval. -/
theorem ratio_abs_lt_one (y1 y2 : ℝ) (h1 : 0 < y1) (h2 : 0 < y2) :
    |(y1 - y2) / (y1 + y2)| < 1 := by
  rw [abs_div, abs_of_pos (by linarith : (0 : ℝ) < y1 + y2), div_lt_one (by linarith), abs_lt]
  constructor <;> linarith

/-- One Parratt step with real Fresnel coefficient, real damping factor
and real sub-stack amplitude reduces to a real Möbius step inside the
open unit interval. -/
theorem step_reduce (r b x : ℝ) (hr : |r| < 1) (hb0 : 0 < b) (hb1 : b ≤ 1) (hx : |x| < 1) :
    ∃ z : ℝ, |z| < 1 ∧
      ((r : ℂ) + (x : ℂ) * (b : ℂ)) / (1 + (r : ℂ) * ((x : ℂ) * (b : ℂ))) = ((z : ℂ)) := by
  have hwb : |x * b| < 1 := by
    rw [abs_mul, abs_of_pos hb0]
    calc |x| * b ≤ |x| * 1 := mul_le_mul_of_nonneg_left hb1 (abs_nonneg x)
      _ = |x| := mul_one _
      _ < 1 := hx
  refine ⟨(r + x * b) / (1 + r * (x * b)), mobius_abs_lt_one r (x * b) hr hwb, ?_⟩
  push_cast
  ring

/-- Below the fronting medium, a sub-stack of purely imaginary
wavevectors, nonnegative thicknesses and zero roughness has a real
Parratt amplitude of modulus strictly below one. -/
theorem parratt_inner (L : List (ℂ × ℝ × ℝ))
    (hk : ∀ t ∈ L, ∃ y : ℝ, 0 < y ∧ t.1 = Complex.I * (y : ℂ))
    (hd : ∀ t ∈ L, 0 ≤ t.2.1) (hs : ∀ t ∈ L, t.2.2 = 0) :
    ∃ x : ℝ, |x| < 1 ∧ parrattR L = ((x : ℂ)) := by
  induction L with
  | nil => exact ⟨0, by norm_num, by simp [parrattR]⟩
  | cons t rest ih =>
      cases rest with
      | nil =>
          refine ⟨0, by norm_num, ?_⟩
          obtain ⟨k, d, s⟩ := t
          simp [parrattR]
      | cons t2 rest2 =>
          obtain ⟨x, hx, hxeq⟩ :=
            ih (fun u hu => hk u (List.mem_cons_of_mem _ hu))
               (fun u hu => hd u (List.mem_cons_of_mem _ hu))
               (fun u hu => hs u (List.mem_cons_of_mem _ hu))
          obtain ⟨k1, d1, s1⟩ := t
          obtain ⟨k2, d2, s2⟩ := t2
          obtain ⟨y1, hy1, hk1⟩ := hk (k1, d1, s1) (List.mem_cons_self _ _)
          obtain ⟨y2, hy2, hk2⟩ :=
            hk (k2, d2, s2) (List.mem_cons_of_mem _ (List.mem_cons_self _ _))
          have hs1 : s1 = 0 := hs (k1, d1, s1) (List.mem_cons_self _ _)
          have hd2 : 0 ≤ d2 := hd (k2, d2, s2) (List.mem_cons_of_mem _ (List.mem_cons_self _ _))
          simp only at hk1 hk2 hs1 hd2
          have hb0 : 0 < Real.exp (-(2 * y2 * d2)) := Real.exp_pos _
          have hb1 : Real.exp (-(2 * y2 * d2)) ≤ 1 := by
            calc Real.exp (-(2 * y2 * d2)) ≤ Real.exp 0 :=
                  Real.exp_le_exp.mpr (by nlinarith)
              _ = 1 := Real.exp_zero
          obtain ⟨z, hz, hzeq⟩ :=
            step_reduce ((y1 - y2) / (y1 + y2)) (Real.exp (-(2 * y2 * d2))) x
              (ratio_abs_lt_one y1 y2 hy1 hy2) hb0 hb1 hx
          refine ⟨z, hz, ?_⟩
          rw [parrattR, hxeq, hk1, hk2, hs1, fresnel_I y1 y2, beta_I y2 d2]
          rw [show ((0 : ℝ) : ℂ) ^ 2 = 0 by norm_num]
          rw [mul_zero, Complex.exp_zero, mul_one]
          exact hzeq

/-- The degenerate Möbius step at Fresnel coefficient `-1` collapses to a
reflected amplitude of unit modulus. -/
theorem abs_sq_neg_one_mobius (w : ℝ) (hw : |w| < 1) :
    Complex.abs ((-1 + (w : ℂ)) / (1 + -1 * (w : ℂ))) ^ 2 = 1 := by
  have hlt := abs_lt.mp hw
  have hne : ((1 - w : ℝ) : ℂ) ≠ 0 := by
    rw [Complex.ofReal_ne_zero]
    intro h0
    have : w = 1 := by linarith
    linarith
  have h1 : (1 : ℂ) + -1 * (w : ℂ) = ((1 - w : ℝ) : ℂ) := by push_cast; ring
  have h2 : (-1 : ℂ) + (w : ℂ) = -((1 - w : ℝ) : ℂ) := by push_cast; ring
  rw [h1, h2, neg_div, div_self hne]
  simp

/-- C4 (amended): for every valid Stack of at least two layers with zero
roughness, uniform (real, absorption-free) SLD per layer, nonnegative
thicknesses, and every medium below the fronting of strictly higher SLD
than the fronting, the computed reflectivity at `Q = 0` equals 1.0. -/
theorem reflectivity_total_reflection_at_zero_q (s : Stack) (l0 l1 : Layer) (ls : List Layer)
    (hlayers : s.layers = l0 :: l1 :: ls)
    (him : ∀ l ∈ s.layers, l.sldIm = 0)
    (hrough : ∀ l ∈ s.layers, l.roughness = 0)
    (hthick : ∀ l ∈ s.layers, 0 ≤ l.thickness)
    (hcontrast : ∀ l ∈ l1 :: ls, l0.sldRe < l.sldRe) :
    reflectivity s 0 = 1 := by
  obtain ⟨lys⟩ := s
  subst hlayers
  have hsld : ∀ l ∈ l0 :: l1 :: ls, l.sld = ((l.sldRe : ℝ) : ℂ) := by
    intro l hl
    have hi := him l hl
    apply Complex.ext <;> simp [Layer.sld, hi]
  have hsld0 : l0.sld = ((l0.sldRe : ℝ) : ℂ) := hsld l0 (List.mem_cons_self _ _)
  simp only [reflectivity, List.map_cons]
  rw [hsld0]
  obtain ⟨x, hx, hxeq⟩ :=
    parratt_inner ((l1 :: ls).map
        (fun l => (kzOf ((l0.sldRe : ℝ) : ℂ) l.sld 0, l.thickness, l.roughness)))
      (by
        intro t ht
        obtain ⟨l, hl, rfl⟩ := List.mem_map.1 ht
        have hsl : l.sld = ((l.sldRe : ℝ) : ℂ) := hsld l (List.mem_cons_of_mem _ hl)
        simp only [hsl]
        obtain ⟨y, hy, hyeq⟩ := kzOf_pos_contrast l0.sldRe l.sldRe (hcontrast l hl)
        exact ⟨y, hy, hyeq⟩)
      (by
        intro t ht
        obtain ⟨l, hl, rfl⟩ := List.mem_map.1 ht
        exact hthick l (List.mem_cons_of_mem _ hl))
      (by
        intro t ht
        obtain ⟨l, hl, rfl⟩ := List.mem_map.1 ht
        exact hrough l (List.mem_cons_of_mem _ hl))
  rw [List.map_cons] at hxeq
  rw [parrattR, hxeq]
  rw [hsld l1 (List.mem_cons_of_mem _ (List.mem_cons_self _ _))]
  obtain ⟨y1, hy1, hk1⟩ :=
    kzOf_pos_contrast l0.sldRe l1.sldRe (hcontrast l1 (List.mem_cons_self _ _))
  rw [hk1, kzOf_self, hrough l0 (List.mem_cons_self _ _), beta_I y1 l1.thickness]
  have hk1ne : Complex.I * ((y1 : ℝ) : ℂ) ≠ 0 :=
    mul_ne_zero Complex.I_ne_zero (Complex.ofReal_ne_zero.mpr (ne_of_gt hy1))
  have hb0 : 0 < Real.exp (-(2 * y1 * l1.thickness)) := Real.exp_pos _
  have hb1 : Real.exp (-(2 * y1 * l1.thickness)) ≤ 1 := by
    have ht1 : 0 ≤ l1.thickness :=
      hthick l1 (List.mem_cons_of_mem _ (List.mem_cons_self _ _))
    calc Real.exp (-(2 * y1 * l1.thickness)) ≤ Real.exp 0 :=
          Real.exp_le_exp.mpr (by nlinarith)
      _ = 1 := Real.exp_zero
  have hw : |x * Real.exp (-(2 * y1 * l1.thickness))| < 1 := by
    rw [abs_mul, abs_of_pos hb0]
    calc |x| * Real.exp (-(2 * y1 * l1.thickness)) ≤ |x| * 1 :=
          mul_le_mul_of_nonneg_left hb1 (abs_nonneg x)
      _ = |x| := mul_one _
      _ < 1 := hx
  simp only [Complex.ofReal_zero, ne_eq, mul_zero, zero_mul, Complex.exp_zero, mul_one,
    zero_sub, zero_add, neg_div, div_self hk1ne]
  rw [show ((x : ℂ) * ((Real.exp (-(2 * y1 * l1.thickness)) : ℝ) : ℂ))
      = (((x * Real.exp (-(2 * y1 * l1.thickness)) : ℝ)) : ℂ) by push_cast; ring]
  exact abs_sq_neg_one_mobius (x * Real.exp (-(2 * y1 * l1.thickness))) hw

/-- Counterexample to C4 as stated: the all-zero two-layer stack is valid,
has zero roughness everywhere and uniform SLD per layer, yet its computed
reflectivity at `Q = 0` is 0, not 1 (a uniform medium reflects nothing —
the claim omits the required SLD contrast against the fronting). -/
theorem reflectivity_q0_uniform_stack_counterexample :
    validStack uniformDemoStack
      ∧ (∀ l ∈ uniformDemoStack.layers, l.roughness = 0)
      ∧ reflectivity uniformDemoStack 0 ≠ 1 := by
  refine ⟨⟨by simp [uniformDemoStack], ?_⟩, ?_, ?_⟩
  · intro l hl
    simp only [uniformDemoStack, List.mem_cons, List.not_mem_nil, or_false] at hl
    rcases hl with rfl | rfl <;> norm_num
  · intro l hl
    simp only [uniformDemoStack, List.mem_cons, List.not_mem_nil, or_false] at hl
    rcases hl with rfl | rfl <;> norm_num
  · rw [show reflectivity uniformDemoStack 0 = 0 from by
      simp [uniformDemoStack, reflectivity, parrattR, kzOf_self]]
    norm_num

/-- Witness for C4 at the concrete vacuum-over-substrate stack. -/
theorem reflectivity_total_reflection_witness :
    reflectivity contrastDemoStack 0 = 1 :=
  reflectivity_total_reflection_at_zero_q contrastDemoStack
    { thickness := 0, sldRe := 0, sldIm := 0, roughness := 0 }
    { thickness := 0, sldRe := 1, sldIm := 0, roughness := 0 }
    []
    rfl
    (by
      intro l hl
      simp only [contrastDemoStack, List.mem_cons, List.not_mem_nil, or_false] at hl
      rcases hl with rfl | rfl <;> norm_num)
    (by
      intro l hl
      simp only [contrastDemoStack, List.mem_cons, List.not_mem_nil, or_false] at hl
      rcases hl with rfl | rfl <;> norm_num)
    (by
      intro l hl
      simp only [contrastDemoStack, List.mem_cons, List.not_mem_nil, or_false] at hl
      rcases hl with rfl | rfl <;> norm_num)
    (by
      intro l hl
      simp only [List.mem_cons, List.not_mem_nil, or_false] at hl
      subst hl
      norm_num)
